import Mathlib

/-!
# Verification of BunqJSClient behaviour

Shallow embedding of the `RequestInquiry` endpoint wrapper
(`src/Api/RequestInquiry.ts`) and of the `BunqJSClient` session-handshake
operations, together with theorems settling the specification claims.

Network effects are made explicit: each embedded operation returns, next to
its result, the list of HTTP calls it issues, so that properties such as
"no request is issued when validation fails" are directly statable.
-/

set_option autoImplicit false

/-- An amount object (`Types/Amount.ts`): a value/currency pair. -/
structure Amount where
  value : String
  currency : String
deriving DecidableEq, Repr

/-- A counterparty alias object (`Types/CounterpartyAlias.ts`). -/
structure CounterpartyAlias where
  aliasType : String
  aliasValue : String
deriving DecidableEq, Repr

/-- A value stored in a JSON request body built by the endpoint wrappers. -/
inductive BodyValue
  | str (s : String)
  | num (n : Int)
  | bool (b : Bool)
  | amount (a : Amount)
  | counterparty (c : CounterpartyAlias)
deriving DecidableEq, Repr

/-- An HTTP call issued through the `ApiAdapter`. -/
inductive ApiCall
  | get (endpoint : String) (params : List (String × Int))
  | post (endpoint : String) (body : List (String × BodyValue))
deriving DecidableEq, Repr

/-- Pagination options of `RequestInquiry.list`; `none` models the
TypeScript literal `false` for `newer_id` / `older_id`. -/
structure PaginationOptions where
  count : Int
  newer_id : Option Int
  older_id : Option Int
deriving DecidableEq, Repr

/-- Options of `RequestInquiry.post`; `none` models the TypeScript literal
`false` for `status`, `minimum_age` and `redirect_url`. -/
structure RequestInquiryPostOptions where
  status : Option String
  minimum_age : Option Int
  allow_bunqme : Bool
  redirect_url : Option String
deriving DecidableEq, Repr

instance {ε α : Type} [DecidableEq ε] [DecidableEq α] : DecidableEq (Except ε α) :=
  fun x y =>
    match x, y with
    | Except.ok a, Except.ok b =>
      if h : a = b then isTrue (by rw [h]) else isFalse (by simp [h])
    | Except.error a, Except.error b =>
      if h : a = b then isTrue (by rw [h]) else isFalse (by simp [h])
    | Except.ok _, Except.error _ => isFalse (by simp)
    | Except.error _, Except.ok _ => isFalse (by simp)

/-- Outcome of `RequestInquiry.post`: the thrown error or unit, and the
HTTP calls issued during the invocation. -/
structure PostOutcome where
  result : Except String Unit
  calls : List ApiCall
deriving DecidableEq, Repr

namespace RequestInquiry

/-- The endpoint string shared by `list` and `post`. -/
def endpoint (userId monetaryAccountId : Nat) : String :=
  "/v1/user/" ++ toString userId ++ "/monetary-account/" ++
    toString monetaryAccountId ++ "/request-inquiry"

/-- Default `options` argument of `RequestInquiry.list`. -/
def defaultListOptions : PaginationOptions :=
  { count := 50, newer_id := none, older_id := none }

/-- The `params` object built by `RequestInquiry.list`. -/
def listParams (options : PaginationOptions) : List (String × Int) :=
  let params := [("count", options.count)]
  let params :=
    match options.newer_id with
    | some n => params ++ [("newer_id", n)]
    | none => params
  match options.older_id with
  | some n => params ++ [("older_id", n)]
  | none => params

/-- `RequestInquiry.list`: issues one GET with the pagination params. -/
def list (userId monetaryAccountId : Nat)
    (options : PaginationOptions := defaultListOptions) : ApiCall :=
  ApiCall.get (endpoint userId monetaryAccountId) (listParams options)

/-- Default `options` argument of `RequestInquiry.post`. -/
def defaultPostOptions : RequestInquiryPostOptions :=
  { status := none, minimum_age := none, allow_bunqme := false,
    redirect_url := none }

/-- The `minimum_age` range test exactly as written in the source:
`options.minimum_age < 12 && options.minimum_age > 100`. -/
def minimumAgeRejected (age : Int) : Bool :=
  age < 12 && age > 100

/-- Tail of `RequestInquiry.post` after the `minimum_age` check: appends
`redirect_url` when set and issues the POST. -/
def postIssue (userId monetaryAccountId : Nat)
    (options : RequestInquiryPostOptions)
    (requestOptions : List (String × BodyValue)) : PostOutcome :=
  let requestOptions :=
    match options.redirect_url with
    | some u => requestOptions ++ [("redirect_url", BodyValue.str u)]
    | none => requestOptions
  { result := Except.ok (),
    calls := [ApiCall.post (endpoint userId monetaryAccountId) requestOptions] }

/-- `RequestInquiry.post`: builds the request body from the arguments and
options, throws on the (as-written) `minimum_age` range check, and issues
one POST otherwise. -/
def post (userId monetaryAccountId : Nat) (description : String)
    (amount_inquired : Amount) (counterpartyAlias : CounterpartyAlias)
    (options : RequestInquiryPostOptions := defaultPostOptions) : PostOutcome :=
  let requestOptions : List (String × BodyValue) :=
    [("counterparty_alias", BodyValue.counterparty counterpartyAlias),
     ("description", BodyValue.str description),
     ("amount_inquired", BodyValue.amount amount_inquired),
     ("allow_bunqme", BodyValue.bool options.allow_bunqme)]
  let requestOptions :=
    match options.status with
    | some s => requestOptions ++ [("status", BodyValue.str s)]
    | none => requestOptions
  match options.minimum_age with
  | some age =>
    if minimumAgeRejected age then
      { result := Except.error
          "Invalid minimum_age. Value has to be 12 <= minimum_age <= 100",
        calls := [] }
    else
      postIssue userId monetaryAccountId options
        (requestOptions ++ [("minimum_age", BodyValue.num age)])
  | none => postIssue userId monetaryAccountId options requestOptions

end RequestInquiry

/-- The range check `age < 12 && age > 100` of the source can never hold:
no integer is simultaneously below 12 and above 100, so the `throw` branch
of `RequestInquiry.post` is dead code. -/
theorem minimumAgeRejected_eq_false (age : Int) :
    RequestInquiry.minimumAgeRejected age = false := by
  unfold RequestInquiry.minimumAgeRejected
  simp only [Bool.and_eq_false_iff, decide_eq_false_iff_not, not_lt]
  omega

/-- C1: contrary to the claim, an out-of-range `minimum_age` (here 5) does
NOT make `RequestInquiry.post` throw: because the source tests
`minimum_age < 12 && minimum_age > 100` (an unsatisfiable conjunction),
the call succeeds and the out-of-range value is placed in the request
body. -/
theorem post_minimum_age_out_of_range_is_sent :
    RequestInquiry.post 1 2 "desc" ⟨"10.00", "EUR"⟩ ⟨"EMAIL", "a@b.c"⟩
      { status := none, minimum_age := some 5, allow_bunqme := false,
        redirect_url := none } =
    { result := Except.ok (),
      calls := [ApiCall.post "/v1/user/1/monetary-account/2/request-inquiry"
        [("counterparty_alias", BodyValue.counterparty ⟨"EMAIL", "a@b.c"⟩),
         ("description", BodyValue.str "desc"),
         ("amount_inquired", BodyValue.amount ⟨"10.00", "EUR"⟩),
         ("allow_bunqme", BodyValue.bool false),
         ("minimum_age", BodyValue.num 5)]] } := by
  decide

/-- C2: every invocation of `RequestInquiry.post` either succeeds, or it
fails having issued no HTTP call: the `throw` precedes the
`ApiAdapter.post` invocation, so a call that fails validation issues no
request. -/
theorem post_failure_issues_no_call (userId monetaryAccountId : Nat)
    (description : String) (amount_inquired : Amount)
    (counterpartyAlias : CounterpartyAlias)
    (options : RequestInquiryPostOptions) :
    (RequestInquiry.post userId monetaryAccountId description amount_inquired
        counterpartyAlias options).result = Except.ok () ∨
    (RequestInquiry.post userId monetaryAccountId description amount_inquired
        counterpartyAlias options).calls = [] := by
  unfold RequestInquiry.post
  cases options.minimum_age with
  | none => left; simp [RequestInquiry.postIssue]
  | some age =>
    cases hr : RequestInquiry.minimumAgeRejected age with
    | false => left; simp [hr, RequestInquiry.postIssue]
    | true => right; simp [hr]

/-- C9: `RequestInquiry.list` issues one GET whose query params always
contain `count` (with value `options.count`, `50` for the default
options), contain `newer_id` exactly when `options.newer_id` is not
`false` (with that value), likewise `older_id`, and nothing else. -/
theorem list_params_spec (userId monetaryAccountId : Nat)
    (options : PaginationOptions) :
    (∃ ps, RequestInquiry.list userId monetaryAccountId options =
        ApiCall.get (RequestInquiry.endpoint userId monetaryAccountId) ps ∧
      ∀ k v, ((k, v) ∈ ps ↔
        (k = "count" ∧ v = options.count) ∨
        (k = "newer_id" ∧ options.newer_id = some v) ∨
        (k = "older_id" ∧ options.older_id = some v))) ∧
    RequestInquiry.defaultListOptions =
      { count := 50, newer_id := none, older_id := none } := by
  refine ⟨⟨RequestInquiry.listParams options, rfl, ?_⟩, rfl⟩
  intro k v
  unfold RequestInquiry.listParams
  obtain ⟨c, nid, oid⟩ := options
  cases nid <;> cases oid <;> simp <;> tauto

/-- C10: `RequestInquiry.post` always issues a POST whose body contains
exactly: `counterparty_alias`, `description`, `amount_inquired` and
`allow_bunqme` (the latter sent even when it is the default `false`),
plus `status` / `minimum_age` / `redirect_url` each present with the
option's value exactly when the corresponding option is not `false`; no
other field occurs. -/
theorem post_body_spec (userId monetaryAccountId : Nat)
    (description : String) (amount_inquired : Amount)
    (counterpartyAlias : CounterpartyAlias)
    (options : RequestInquiryPostOptions) :
    ∃ body,
      RequestInquiry.post userId monetaryAccountId description
          amount_inquired counterpartyAlias options =
        { result := Except.ok (),
          calls := [ApiCall.post
            (RequestInquiry.endpoint userId monetaryAccountId) body] } ∧
      ∀ k v, ((k, v) ∈ body ↔
        (k = "counterparty_alias" ∧
          v = BodyValue.counterparty counterpartyAlias) ∨
        (k = "description" ∧ v = BodyValue.str description) ∨
        (k = "amount_inquired" ∧ v = BodyValue.amount amount_inquired) ∨
        (k = "allow_bunqme" ∧ v = BodyValue.bool options.allow_bunqme) ∨
        (k = "status" ∧ ∃ s, options.status = some s ∧ v = BodyValue.str s) ∨
        (k = "minimum_age" ∧
          ∃ n, options.minimum_age = some n ∧ v = BodyValue.num n) ∨
        (k = "redirect_url" ∧
          ∃ u, options.redirect_url = some u ∧ v = BodyValue.str u)) := by
  obtain ⟨st, ma, ab, ru⟩ := options
  unfold RequestInquiry.post
  cases st <;> cases ma <;> cases ru <;>
    simp [RequestInquiry.postIssue, minimumAgeRejected_eq_false]

/-!
## Session handshake model (`BunqJSClient`)

The `BunqJSClient` class itself is not among the provided source files
(only its test suite is), so the handshake operations below are modelled
from the specification (§4.3–§4.6), with the network effect of each
operation returned explicitly as a list of issued calls.
-/

/-- A user-identity record as returned by session registration. -/
structure UserInfoRec where
  id : Nat
  name : String
deriving DecidableEq, Repr

/-- Modelled from the spec: the user-identity part of a
session-registration response is a tagged union — exactly one of the
recognized kinds, or an unrecognized tag. -/
inductive UserVariant
  | userCompany (info : UserInfoRec)
  | userPerson (info : UserInfoRec)
  | userLight (info : UserInfoRec)
  | userApiKey (info : UserInfoRec)
  | unknownKind (tag : String)
deriving DecidableEq, Repr

/-- Modelled from the spec: the mutable `Session` snapshot owned by a
`BunqJSClient` instance (key pair, installation context, device
registration, session fields). `none` models a `false`/`null` field. -/
structure SessionState where
  publicKey : Option String
  installToken : Option String
  serverPublicKey : Option String
  deviceId : Option Nat
  sessionId : Option Nat
  sessionToken : Option String
  sessionTokenId : Option Nat
  userInfo : List (String × UserInfoRec)
  sessionExpiryTime : Option Nat
deriving DecidableEq, Repr

/-- Errors surfaced by the handshake operations. -/
inductive HandshakeError
  | missingKeyPair
  | missingInstallation
  | missingDeviceRegistration
  | installationFailed (status : Nat)
  | deviceRegistrationFatal (status : Nat)
  | deviceRegistrationTransient (status : Nat)
  | sessionRegistrationFailed (status : Nat)
  | unknownUserType
  | sessionDeleteFailed (status : Nat)
deriving DecidableEq, Repr

/-- The network calls a handshake operation can issue. -/
inductive HandshakeCall
  | installation
  | deviceServer
  | sessionServer
  | sessionDelete
deriving DecidableEq, Repr

/-- The server's reply to a handshake request: a payload or an HTTP
error status. -/
inductive HttpResult (α : Type)
  | success (payload : α)
  | httpError (status : Nat)
deriving DecidableEq, Repr

/-- Payload of a successful installation response. -/
structure InstallPayload where
  token : String
  serverPublicKey : String
deriving DecidableEq, Repr

/-- Payload of a successful session-registration response. -/
structure SessionPayload where
  sessionId : Nat
  sessionToken : String
  sessionTokenId : Nat
  expiresAt : Nat
  user : UserVariant
deriving DecidableEq, Repr

namespace BunqJSClient

/-- Modelled from the spec: `resetCredentials()` clears installation
context, device registration and session entirely; the key pair is kept. -/
def resetCredentials (s : SessionState) : SessionState :=
  { s with installToken := none, serverPublicKey := none, deviceId := none,
           sessionId := none, sessionToken := none, sessionTokenId := none,
           userInfo := [], sessionExpiryTime := none }

/-- Modelled from the spec: the local clearing part of `destroySession()`:
session identifier, token, token identifier null and user identity empty. -/
def clearSession (s : SessionState) : SessionState :=
  { s with sessionId := none, sessionToken := none, sessionTokenId := none,
           userInfo := [], sessionExpiryTime := none }

/-- Modelled from the spec: a Session is valid while its token is present
and its expiry timestamp has not passed. -/
def sessionValid (s : SessionState) (now : Nat) : Bool :=
  s.sessionToken.isSome &&
    (match s.sessionExpiryTime with
     | some t => now < t
     | none => false)

/-- Modelled from the spec: `install()` — idempotent; if an installation
token is already persisted it returns without a network call; without a
device public key it fails fast; otherwise it issues the installation
request and persists the returned token and counterparty public key. -/
def install (s : SessionState) (server : HttpResult InstallPayload) :
    Except HandshakeError Unit × SessionState × List HandshakeCall :=
  if s.installToken.isSome then (Except.ok (), s, [])
  else
    match s.publicKey with
    | none => (Except.error HandshakeError.missingKeyPair, s, [])
    | some _ =>
      match server with
      | HttpResult.success p =>
        (Except.ok (),
         { s with installToken := some p.token,
                  serverPublicKey := some p.serverPublicKey },
         [HandshakeCall.installation])
      | HttpResult.httpError st =>
        (Except.error (HandshakeError.installationFailed st), s,
         [HandshakeCall.installation])

/-- Modelled from the spec: `registerDevice()` — idempotent; fails fast
without an installation; a 4xx reply is fatal and resets all local
credential state, a non-4xx error reply is transient and leaves the
state untouched; success persists the device identifier. -/
def registerDevice (s : SessionState) (server : HttpResult Nat) :
    Except HandshakeError Unit × SessionState × List HandshakeCall :=
  if s.deviceId.isSome then (Except.ok (), s, [])
  else if s.installToken.isNone then
    (Except.error HandshakeError.missingInstallation, s, [])
  else
    match server with
    | HttpResult.success did =>
      (Except.ok (), { s with deviceId := some did },
       [HandshakeCall.deviceServer])
    | HttpResult.httpError st =>
      if 400 ≤ st ∧ st < 500 then
        (Except.error (HandshakeError.deviceRegistrationFatal st),
         resetCredentials s, [HandshakeCall.deviceServer])
      else
        (Except.error (HandshakeError.deviceRegistrationTransient st), s,
         [HandshakeCall.deviceServer])

/-- Modelled from the spec: the recognized user-identity kinds; an
unrecognized kind yields no user-info record. -/
def userInfoOfVariant : UserVariant → Option (List (String × UserInfoRec))
  | UserVariant.userCompany i => some [("UserCompany", i)]
  | UserVariant.userPerson i => some [("UserPerson", i)]
  | UserVariant.userLight i => some [("UserLight", i)]
  | UserVariant.userApiKey i => some [("UserApiKey", i)]
  | UserVariant.unknownKind _ => none

/-- Modelled from the spec: `registerSession()` — idempotent while the
existing Session has not expired; fails fast without a device
registration; an unrecognized user-identity variant is a fatal
`UnknownUserTypeError` and nothing is persisted; success persists the
full Session snapshot. -/
def registerSession (s : SessionState) (now : Nat)
    (server : HttpResult SessionPayload) :
    Except HandshakeError Unit × SessionState × List HandshakeCall :=
  if sessionValid s now then (Except.ok (), s, [])
  else if s.deviceId.isNone then
    (Except.error HandshakeError.missingDeviceRegistration, s, [])
  else
    match server with
    | HttpResult.success p =>
      match userInfoOfVariant p.user with
      | some info =>
        (Except.ok (),
         { s with sessionId := some p.sessionId,
                  sessionToken := some p.sessionToken,
                  sessionTokenId := some p.sessionTokenId,
                  userInfo := info,
                  sessionExpiryTime := some p.expiresAt },
         [HandshakeCall.sessionServer])
      | none =>
        (Except.error HandshakeError.unknownUserType, s,
         [HandshakeCall.sessionServer])
    | HttpResult.httpError st =>
      (Except.error (HandshakeError.sessionRegistrationFailed st), s,
       [HandshakeCall.sessionServer])

/-- Modelled from the spec: `destroySession()` — sends the invalidation
request and then unconditionally clears all Session fields locally,
whether or not the server call succeeded. -/
def destroySession (s : SessionState) (server : HttpResult Bool) :
    Except HandshakeError Unit × SessionState × List HandshakeCall :=
  match server with
  | HttpResult.success _ =>
    (Except.ok (), clearSession s, [HandshakeCall.sessionDelete])
  | HttpResult.httpError st =>
    (Except.error (HandshakeError.sessionDeleteFailed st), clearSession s,
     [HandshakeCall.sessionDelete])

end BunqJSClient

/-- Errors of the OAuth code exchange. -/
inductive OAuthError
  | stateMismatch
deriving DecidableEq, Repr

/-- A network call issued by the OAuth code exchange. -/
inductive OAuthCall
  | tokenExchange (url : String)
deriving DecidableEq, Repr

namespace BunqJSClient

/-- Modelled from the spec: `formatOAuthAuthorizationRequestUrl` — pure
construction of the authorization URL; `useSandbox` selects the sandbox
host and a supplied state value is appended as `&state=...`. -/
def formatOAuthAuthorizationRequestUrl (clientId redirectUri : String)
    (state : Option String) (useSandbox : Bool) : String :=
  let base :=
    (if useSandbox then
      "https://oauth.sandbox.bunq.com/auth?response_type=code&client_id="
     else
      "https://oauth.bunq.com/auth?response_type=code&client_id=") ++
    clientId ++ "&redirect_uri=" ++ redirectUri
  match state with
  | some st => base ++ "&state=" ++ st
  | none => base

/-- Modelled from the spec: `formatOAuthKeyExchangeUrl` — pure
construction of the token-exchange URL. -/
def formatOAuthKeyExchangeUrl
    (clientId clientSecret redirectUri code : String)
    (useSandbox : Bool) (grantType : String) : String :=
  (if useSandbox then
    "https://api-oauth.sandbox.bunq.com/v1/token?grant_type="
   else
    "https://api.oauth.bunq.com/v1/token?grant_type=") ++
  grantType ++ "&code=" ++ code ++ "&client_id=" ++ clientId ++
  "&client_secret=" ++ clientSecret ++ "&redirect_uri=" ++ redirectUri

/-- Modelled from the spec: `exchangeOAuthToken` — the authorization-code
exchange. `returnedState` is the state of the authorization response the
caller received; when `expectedState` is supplied and differs from it the
exchange fails with a state mismatch, issuing no token-exchange request;
otherwise the token request is issued and the access token returned. -/
def exchangeOAuthToken (clientId clientSecret redirectUri code : String)
    (returnedState : String) (expectedState : Option String)
    (useSandbox : Bool) (grantType : String) (serverAccessToken : String) :
    Except OAuthError String × List OAuthCall :=
  match expectedState with
  | some exp =>
    if returnedState = exp then
      (Except.ok serverAccessToken,
       [OAuthCall.tokenExchange (formatOAuthKeyExchangeUrl clientId
         clientSecret redirectUri code useSandbox grantType)])
    else (Except.error OAuthError.stateMismatch, [])
  | none =>
    (Except.ok serverAccessToken,
     [OAuthCall.tokenExchange (formatOAuthKeyExchangeUrl clientId
       clientSecret redirectUri code useSandbox grantType)])

/-- After a successful `install` the installation token is present. -/
theorem install_ok_hasToken (s : SessionState)
    (server : HttpResult InstallPayload) (r : Unit) (s₁ : SessionState)
    (c : List HandshakeCall)
    (h : install s server = (Except.ok r, s₁, c)) :
    s₁.installToken.isSome = true := by
  unfold install at h
  split at h
  · simp_all
  · split at h
    · simp_all
    · split at h
      next p =>
        simp only [Prod.mk.injEq] at h
        obtain ⟨-, h₁, -⟩ := h
        subst h₁
        simp
      next st => simp at h

/-- `install` with an installation token present is a no-op. -/
theorem install_noop_of_installed (s : SessionState)
    (server : HttpResult InstallPayload)
    (h : s.installToken.isSome = true) :
    install s server = (Except.ok (), s, []) := by
  unfold install
  simp [h]

/-- After a successful `registerDevice` the device identifier is present. -/
theorem registerDevice_ok_hasDevice (s : SessionState)
    (server : HttpResult Nat) (r : Unit) (s₁ : SessionState)
    (c : List HandshakeCall)
    (h : registerDevice s server = (Except.ok r, s₁, c)) :
    s₁.deviceId.isSome = true := by
  unfold registerDevice at h
  split at h
  · simp_all
  · split at h
    · simp_all
    · split at h
      next did =>
        simp only [Prod.mk.injEq] at h
        obtain ⟨-, h₁, -⟩ := h
        subst h₁
        simp
      next st => split at h <;> simp_all

/-- `registerDevice` with a device identifier present is a no-op. -/
theorem registerDevice_noop_of_registered (s : SessionState)
    (server : HttpResult Nat) (h : s.deviceId.isSome = true) :
    registerDevice s server = (Except.ok (), s, []) := by
  unfold registerDevice
  simp [h]

/-- After a successful `registerSession` whose response (if any was
consumed) has a future expiry, the session is valid. -/
theorem registerSession_ok_valid (s : SessionState) (now : Nat)
    (server : HttpResult SessionPayload) (r : Unit) (s₁ : SessionState)
    (c : List HandshakeCall)
    (h : registerSession s now server = (Except.ok r, s₁, c))
    (hexp : ∀ p, server = HttpResult.success p → now < p.expiresAt) :
    sessionValid s₁ now = true := by
  unfold registerSession at h
  split at h
  · simp_all
  · split at h
    · simp_all
    · split at h
      next p =>
        split at h
        next info hu =>
          simp only [Prod.mk.injEq] at h
          obtain ⟨-, h₁, -⟩ := h
          subst h₁
          have hp := hexp p rfl
          simp [sessionValid, hp]
        next hu => simp at h
      next st => simp at h

/-- `registerSession` with a still-valid session is a no-op. -/
theorem registerSession_noop_of_valid (s : SessionState) (now : Nat)
    (server : HttpResult SessionPayload)
    (h : sessionValid s now = true) :
    registerSession s now server = (Except.ok (), s, []) := by
  unfold registerSession
  simp [h]

end BunqJSClient

/-- C3: after `destroySession()` the Session's identifier, token and
token identifier are null and the user info is empty, whether the
server-side invalidation call succeeded or failed. -/
theorem destroySession_clears_session_fields (s : SessionState)
    (server : HttpResult Bool) :
    (BunqJSClient.destroySession s server).2.1.sessionId = none ∧
    (BunqJSClient.destroySession s server).2.1.sessionToken = none ∧
    (BunqJSClient.destroySession s server).2.1.sessionTokenId = none ∧
    (BunqJSClient.destroySession s server).2.1.userInfo = [] := by
  cases server <;>
    simp [BunqJSClient.destroySession, BunqJSClient.clearSession]

/-- C4: after a successful `install()`, `registerDevice()` or
`registerSession()` call, repeating the call with unchanged inputs is a
no-op: the second call issues no network request and returns the state
of the first call unchanged (for `registerSession`, given that any
consumed response carries an expiry after `now`). -/
theorem handshake_repeat_is_noop :
    (∀ s server r s₁ c,
      BunqJSClient.install s server = (Except.ok r, s₁, c) →
      BunqJSClient.install s₁ server = (Except.ok (), s₁, [])) ∧
    (∀ s server r s₁ c,
      BunqJSClient.registerDevice s server = (Except.ok r, s₁, c) →
      BunqJSClient.registerDevice s₁ server = (Except.ok (), s₁, [])) ∧
    (∀ s now server r s₁ c,
      BunqJSClient.registerSession s now server = (Except.ok r, s₁, c) →
      (∀ p, server = HttpResult.success p → now < p.expiresAt) →
      BunqJSClient.registerSession s₁ now server = (Except.ok (), s₁, [])) := by
  refine ⟨?_, ?_, ?_⟩
  · intro s server r s₁ c h
    exact BunqJSClient.install_noop_of_installed s₁ server
      (BunqJSClient.install_ok_hasToken s server r s₁ c h)
  · intro s server r s₁ c h
    exact BunqJSClient.registerDevice_noop_of_registered s₁ server
      (BunqJSClient.registerDevice_ok_hasDevice s server r s₁ c h)
  · intro s now server r s₁ c h hexp
    exact BunqJSClient.registerSession_noop_of_valid s₁ now server
      (BunqJSClient.registerSession_ok_valid s now server r s₁ c h hexp)

/-- Witness for C4: concrete first calls (a fresh install, a device
registration and a session registration) followed by the no-op repeat
calls obtained from the theorem. -/
theorem handshake_repeat_is_noop_witness :
    BunqJSClient.install
        ⟨some "pk", none, none, none, none, none, none, [], none⟩
        (HttpResult.success ⟨"itok", "spk"⟩) =
      (Except.ok (),
       ⟨some "pk", some "itok", some "spk", none, none, none, none, [], none⟩,
       [HandshakeCall.installation]) ∧
    BunqJSClient.install
        ⟨some "pk", some "itok", some "spk", none, none, none, none, [], none⟩
        (HttpResult.success ⟨"itok", "spk"⟩) =
      (Except.ok (),
       ⟨some "pk", some "itok", some "spk", none, none, none, none, [], none⟩,
       []) ∧
    BunqJSClient.registerDevice
        ⟨some "pk", some "itok", some "spk", none, none, none, none, [], none⟩
        (HttpResult.success 7) =
      (Except.ok (),
       ⟨some "pk", some "itok", some "spk", some 7, none, none, none, [], none⟩,
       [HandshakeCall.deviceServer]) ∧
    BunqJSClient.registerDevice
        ⟨some "pk", some "itok", some "spk", some 7, none, none, none, [], none⟩
        (HttpResult.success 7) =
      (Except.ok (),
       ⟨some "pk", some "itok", some "spk", some 7, none, none, none, [], none⟩,
       []) ∧
    BunqJSClient.registerSession
        ⟨some "pk", some "itok", some "spk", some 7, none, none, none, [], none⟩
        0 (HttpResult.success ⟨11, "stok", 12, 10, UserVariant.userCompany ⟨42, "bunq"⟩⟩) =
      (Except.ok (),
       ⟨some "pk", some "itok", some "spk", some 7, some 11, some "stok",
        some 12, [("UserCompany", ⟨42, "bunq"⟩)], some 10⟩,
       [HandshakeCall.sessionServer]) ∧
    BunqJSClient.registerSession
        ⟨some "pk", some "itok", some "spk", some 7, some 11, some "stok",
         some 12, [("UserCompany", ⟨42, "bunq"⟩)], some 10⟩
        0 (HttpResult.success ⟨11, "stok", 12, 10, UserVariant.userCompany ⟨42, "bunq"⟩⟩) =
      (Except.ok (),
       ⟨some "pk", some "itok", some "spk", some 7, some 11, some "stok",
        some 12, [("UserCompany", ⟨42, "bunq"⟩)], some 10⟩,
       []) :=
  ⟨by decide,
   handshake_repeat_is_noop.1
     ⟨some "pk", none, none, none, none, none, none, [], none⟩
     (HttpResult.success ⟨"itok", "spk"⟩) ()
     ⟨some "pk", some "itok", some "spk", none, none, none, none, [], none⟩
     [HandshakeCall.installation] (by decide),
   by decide,
   handshake_repeat_is_noop.2.1
     ⟨some "pk", some "itok", some "spk", none, none, none, none, [], none⟩
     (HttpResult.success 7) ()
     ⟨some "pk", some "itok", some "spk", some 7, none, none, none, [], none⟩
     [HandshakeCall.deviceServer] (by decide),
   by decide,
   handshake_repeat_is_noop.2.2
     ⟨some "pk", some "itok", some "spk", some 7, none, none, none, [], none⟩
     0 (HttpResult.success ⟨11, "stok", 12, 10, UserVariant.userCompany ⟨42, "bunq"⟩⟩) ()
     ⟨some "pk", some "itok", some "spk", some 7, some 11, some "stok",
      some 12, [("UserCompany", ⟨42, "bunq"⟩)], some 10⟩
     [HandshakeCall.sessionServer] (by decide)
     (by intro p hp; injection hp with h; subst h; decide)⟩

/-- C5: a session-registration response whose user-identity variant is
unrecognized makes `registerSession()` fail with the unknown-user-type
error, leaving the Session state unchanged (no partial Session is
persisted). -/
theorem registerSession_unknown_user_type (s : SessionState) (now : Nat)
    (p : SessionPayload) (tag : String)
    (hv : BunqJSClient.sessionValid s now = false)
    (hd : s.deviceId.isSome = true)
    (hu : p.user = UserVariant.unknownKind tag) :
    BunqJSClient.registerSession s now (HttpResult.success p) =
      (Except.error HandshakeError.unknownUserType, s,
       [HandshakeCall.sessionServer]) := by
  obtain ⟨did, hdid⟩ := Option.isSome_iff_exists.mp hd
  unfold BunqJSClient.registerSession
  simp [hv, hdid, hu, BunqJSClient.userInfoOfVariant]

/-- Witness for C5: a concrete unrecognized variant makes the concrete
registration fail without touching the state. -/
theorem registerSession_unknown_user_type_witness :
    BunqJSClient.sessionValid
        ⟨some "pk", some "itok", some "spk", some 7, none, none, none, [], none⟩ 0 = false ∧
    BunqJSClient.registerSession
        ⟨some "pk", some "itok", some "spk", some 7, none, none, none, [], none⟩
        0 (HttpResult.success
            ⟨11, "stok", 12, 10, UserVariant.unknownKind "UserPersonInvalid"⟩) =
      (Except.error HandshakeError.unknownUserType,
       ⟨some "pk", some "itok", some "spk", some 7, none, none, none, [], none⟩,
       [HandshakeCall.sessionServer]) :=
  ⟨by decide,
   registerSession_unknown_user_type
     ⟨some "pk", some "itok", some "spk", some 7, none, none, none, [], none⟩
     0 ⟨11, "stok", 12, 10, UserVariant.unknownKind "UserPersonInvalid"⟩
     "UserPersonInvalid" (by decide) (by decide) (by decide)⟩

/-- C6: when an expected state is supplied and the authorization
response's returned state differs from it, `exchangeOAuthToken` fails
with the state-mismatch error and issues no token-exchange request; the
comparison uses only the caller-supplied values. -/
theorem exchangeOAuthToken_state_mismatch
    (clientId clientSecret redirectUri code returnedState expected : String)
    (useSandbox : Bool) (grantType serverAccessToken : String)
    (h : returnedState ≠ expected) :
    BunqJSClient.exchangeOAuthToken clientId clientSecret redirectUri code
        returnedState (some expected) useSandbox grantType serverAccessToken =
      (Except.error OAuthError.stateMismatch, []) := by
  unfold BunqJSClient.exchangeOAuthToken
  simp [h]

/-- Witness for C6: the concrete mismatching states of the test suite. -/
theorem exchangeOAuthToken_state_mismatch_witness :
    "some-state-value" ≠ "some-state-value22" ∧
    BunqJSClient.exchangeOAuthToken "clientId" "clientSecret" "redirectUri"
        "codeValue" "some-state-value" (some "some-state-value22") false
        "authorization_code" "token" =
      (Except.error OAuthError.stateMismatch, []) :=
  ⟨by decide,
   exchangeOAuthToken_state_mismatch "clientId" "clientSecret" "redirectUri"
     "codeValue" "some-state-value" "some-state-value22" false
     "authorization_code" "token" (by decide)⟩

/-- C7: `formatOAuthAuthorizationRequestUrl` is pure string construction:
production without state yields exactly the production URL, sandbox
substitutes the sandbox host, and a supplied state appends
`&state=<value>`; instantiated at `"clientId"`/`"redirectUri"` it yields
the exact literal of the claim. -/
theorem formatOAuthAuthorizationRequestUrl_spec
    (clientId redirectUri st : String) :
    BunqJSClient.formatOAuthAuthorizationRequestUrl clientId redirectUri
        none false =
      "https://oauth.bunq.com/auth?response_type=code&client_id=" ++
        clientId ++ "&redirect_uri=" ++ redirectUri ∧
    BunqJSClient.formatOAuthAuthorizationRequestUrl clientId redirectUri
        none true =
      "https://oauth.sandbox.bunq.com/auth?response_type=code&client_id=" ++
        clientId ++ "&redirect_uri=" ++ redirectUri ∧
    BunqJSClient.formatOAuthAuthorizationRequestUrl clientId redirectUri
        (some st) false =
      BunqJSClient.formatOAuthAuthorizationRequestUrl clientId redirectUri
        none false ++ "&state=" ++ st ∧
    BunqJSClient.formatOAuthAuthorizationRequestUrl "clientId" "redirectUri"
        none false =
      "https://oauth.bunq.com/auth?response_type=code&client_id=clientId&redirect_uri=redirectUri" :=
  ⟨rfl, rfl, rfl, by decide⟩

/-- C8: `registerDevice()` on a 4xx reply fails and resets all local
credential state, after which a repeat `registerDevice()` fails fast for
lack of an installation (the full install cycle must be redone); on a
5xx reply it fails without touching the local state. -/
theorem registerDevice_4xx_resets_5xx_preserves (s : SessionState)
    (st4 st5 : Nat) (hd : s.deviceId = none)
    (hi : s.installToken.isSome = true)
    (h4a : 400 ≤ st4) (h4b : st4 < 500) (h5 : 500 ≤ st5) :
    BunqJSClient.registerDevice s (HttpResult.httpError st4) =
      (Except.error (HandshakeError.deviceRegistrationFatal st4),
       BunqJSClient.resetCredentials s, [HandshakeCall.deviceServer]) ∧
    (BunqJSClient.resetCredentials s).installToken = none ∧
    (BunqJSClient.resetCredentials s).deviceId = none ∧
    (∀ server, BunqJSClient.registerDevice
        (BunqJSClient.resetCredentials s) server =
      (Except.error HandshakeError.missingInstallation,
       BunqJSClient.resetCredentials s, [])) ∧
    BunqJSClient.registerDevice s (HttpResult.httpError st5) =
      (Except.error (HandshakeError.deviceRegistrationTransient st5), s,
       [HandshakeCall.deviceServer]) := by
  obtain ⟨tok, htok⟩ := Option.isSome_iff_exists.mp hi
  refine ⟨?_, rfl, rfl, ?_, ?_⟩
  · unfold BunqJSClient.registerDevice
    simp [hd, htok, h4a, h4b]
  · intro server
    unfold BunqJSClient.registerDevice BunqJSClient.resetCredentials
    simp
  · unfold BunqJSClient.registerDevice
    have hn : ¬(400 ≤ st5 ∧ st5 < 500) := by omega
    simp [hd, htok, hn]

/-- Witness for C8: the 400 and 500 replies of the test suite against a
concrete installed-but-unregistered state. -/
theorem registerDevice_4xx_resets_5xx_preserves_witness :
    BunqJSClient.registerDevice
        ⟨some "pk", some "itok", some "spk", none, none, none, none, [], none⟩
        (HttpResult.httpError 400) =
      (Except.error (HandshakeError.deviceRegistrationFatal 400),
       BunqJSClient.resetCredentials
         ⟨some "pk", some "itok", some "spk", none, none, none, none, [], none⟩,
       [HandshakeCall.deviceServer]) ∧
    BunqJSClient.registerDevice
        ⟨some "pk", some "itok", some "spk", none, none, none, none, [], none⟩
        (HttpResult.httpError 500) =
      (Except.error (HandshakeError.deviceRegistrationTransient 500),
       ⟨some "pk", some "itok", some "spk", none, none, none, none, [], none⟩,
       [HandshakeCall.deviceServer]) :=
  ⟨(registerDevice_4xx_resets_5xx_preserves
      ⟨some "pk", some "itok", some "spk", none, none, none, none, [], none⟩
      400 500 (by decide) (by decide) (by decide) (by decide) (by decide)).1,
   (registerDevice_4xx_resets_5xx_preserves
      ⟨some "pk", some "itok", some "spk", none, none, none, none, [], none⟩
      400 500 (by decide) (by decide) (by decide) (by decide) (by decide)).2.2.2.2⟩
